import Mathlib

/-!
Shallow embedding of the spatial core of the `argos3` simulator
(`src/core/simulator/space/space.cpp` and
`src/plugins/simulator/entities/tag_equipped_entity.cpp`), together with
theorems settling the frozen claims about it.

Real-valued coordinates (`Real` = `double` in the source) are modelled as
rationals; all constants appearing in the claims (0.5, 1, …) are exactly
representable. Exceptions thrown by the C++ code are modelled as `Except`
values with structured error constructors carrying the data the exception
message interpolates.
-/

namespace Argos

/-- `CVector3`: a 3-D vector of real coordinates. -/
structure CVector3 where
  x : ℚ
  y : ℚ
  z : ℚ
deriving DecidableEq, Repr

/-- Componentwise `operator<=` on `CVector3` (used by `CreateGenerator`
for the uniform-bounds sanity check). -/
def CVector3.le (a b : CVector3) : Bool :=
  decide (a.x ≤ b.x) && decide (a.y ≤ b.y) && decide (a.z ≤ b.z)

/-! ## Grid generator (`GridGenerator` in space.cpp) -/

/-- `GridGenerator`'s fields: center, layout (three cell counts),
per-axis distances and the stateful counter `m_unNumEntityPlaced`. -/
structure GridGenerator where
  center : CVector3
  layout0 : ℕ
  layout1 : ℕ
  layout2 : ℕ
  distances : CVector3
  numEntityPlaced : ℕ
deriving DecidableEq, Repr

/-- Errors thrown by `GridGenerator::operator()`:
`retryImpossible n` models `Impossible to place entity #n in grid`,
`capacityExceeded` models the `trying to place more entities than allowed
by the layout` exception. -/
inductive GridError where
  | retryImpossible (n : ℕ)
  | capacityExceeded
deriving DecidableEq, Repr

/-- `GridGenerator::operator()(bool b_is_retry)`: fail on retry; otherwise,
while the counter is below `layout0 * layout1 * layout2`, emit the cell of
index `numEntityPlaced` (x varies fastest via `% layout0`, then y via
`/ layout0 % layout1`, then z via `/ (layout0 * layout1)`), centered on
`center`, and increment the counter; past capacity, fail. -/
def GridGenerator.call (g : GridGenerator) (isRetry : Bool) :
    Except GridError (CVector3 × GridGenerator) :=
  if isRetry then
    .error (.retryImpossible g.numEntityPlaced)
  else if g.numEntityPlaced < g.layout0 * g.layout1 * g.layout2 then
    .ok (⟨g.center.x + ((g.layout0 - 1 : ℕ) : ℚ) * g.distances.x * (1/2)
            - ((g.numEntityPlaced % g.layout0 : ℕ) : ℚ) * g.distances.x,
          g.center.y + ((g.layout1 - 1 : ℕ) : ℚ) * g.distances.y * (1/2)
            - ((g.numEntityPlaced / g.layout0 % g.layout1 : ℕ) : ℚ) * g.distances.y,
          g.center.z + ((g.layout2 - 1 : ℕ) : ℚ) * g.distances.z * (1/2)
            - ((g.numEntityPlaced / (g.layout0 * g.layout1) : ℕ) : ℚ) * g.distances.z⟩,
         { g with numEntityPlaced := g.numEntityPlaced + 1 })
  else
    .error .capacityExceeded

/-- The row-major cell decode: the position of the cell with per-axis
indices `(i, j, k)` in a grid with the given center, layout and
distances. Matches the arithmetic in `GridGenerator::operator()` once the
flat counter `n` is split as `i = n % layout0`, `j = n / layout0 % layout1`,
`k = n / (layout0 * layout1)`. -/
def gridCell (center : CVector3) (layout0 layout1 layout2 : ℕ)
    (distances : CVector3) (i j k : ℕ) : CVector3 :=
  ⟨center.x + ((layout0 - 1 : ℕ) : ℚ) * distances.x * (1/2) - (i : ℚ) * distances.x,
   center.y + ((layout1 - 1 : ℕ) : ℚ) * distances.y * (1/2) - (j : ℚ) * distances.y,
   center.z + ((layout2 - 1 : ℕ) : ℚ) * distances.z * (1/2) - (k : ℚ) * distances.z⟩

/-! ## Uniform generator (`UniformGenerator` in space.cpp) -/

/-- `UniformGenerator`'s configuration: the per-axis bounds. -/
structure UniformGenerator where
  min : CVector3
  max : CVector3
deriving DecidableEq, Repr

/-- `UniformGenerator::operator()`: per axis, if `max > min` draw from the
RNG over the range `[min, max]`, else return the fixed `max`. The RNG
(`CRandom::CRNG::Uniform`, an external collaborator) is abstracted as a
function `rng lo hi`; its range contract is a hypothesis of the theorems. -/
def UniformGenerator.call (rng : ℚ → ℚ → ℚ) (u : UniformGenerator) : CVector3 :=
  ⟨if u.max.x > u.min.x then rng u.min.x u.max.x else u.max.x,
   if u.max.y > u.min.y then rng u.min.y u.max.y else u.max.y,
   if u.max.z > u.min.z then rng u.min.z u.max.z else u.max.z⟩

/-- Configuration error for generator construction
(`CreateGenerator`, method `uniform`: min not ≤ max). -/
inductive GenConfigError where
  | uniformMinNotLeMax
deriving DecidableEq, Repr

/-- The `uniform` branch of `CreateGenerator`: reject configurations where
`min <= max` does not hold componentwise, else build the generator. -/
def createUniformGenerator (mn mx : CVector3) :
    Except GenConfigError UniformGenerator :=
  if CVector3.le mn mx then .ok ⟨mn, mx⟩ else .error .uniformMinNotLeMax

/-! ## Physics-engine binder (`CSpace::AddEntityToPhysicsEngine`) -/

/-- An entity node together with its chain of ancestors: `root i` is an
entity with no parent, `child i p` an entity whose parent node is `p`.
Models the `HasParent`/`GetParent` chain walked by the binder. -/
inductive EntityTree where
  | root (id : String)
  | child (id : String) (parent : EntityTree)
deriving DecidableEq, Repr

/-- The entity's own identifier (`GetId` on the entity itself). -/
def EntityTree.ownId : EntityTree → String
  | .root i => i
  | .child i _ => i

/-- The identifier of the topmost ancestor: the
`while(pcToAdd->HasParent()) pcToAdd = &pcToAdd->GetParent();` loop. -/
def EntityTree.rootId : EntityTree → String
  | .root i => i
  | .child _ p => p.rootId

/-- A physics engine as seen by the binder: an identifier, the spatial
domain test `IsPointContained`, and the set of root entities it houses
(`AddEntity` appends to it). -/
structure CPhysicsEngine where
  id : String
  containsPoint : CVector3 → Bool
  entities : List String

/-- An embodied entity as seen by the binder: its node in the entity
tree, its current position (`GetPosition`) and its `IsMovable` flag. -/
structure CEmbodiedEntity where
  node : EntityTree
  position : CVector3
  movable : Bool

/-- Errors thrown by `CSpace::AddEntityToPhysicsEngine`:
`noHousing r` models `No physics engine can house entity "r"` (the message
names the root's id), `ambiguous e engines` models the
`Multiple engines can house "e" … Conflicting engines: …` exception, whose
message names the embodied entity's own id and every potential engine's id
in order. -/
inductive EngineAssignError where
  | noHousing (rootId : String)
  | ambiguous (entityId : String) (engineIds : List String)
deriving DecidableEq, Repr

/-- Append the root's id to the entity set of every engine whose domain
contains `pos`, leaving the other engines untouched. This renders, as a
pure map over the engine list, the C++ loops that call `AddEntity(*pcToAdd)`
on (pointers into) the matching engines. -/
def addRootToMatching (rootId : String) (pos : CVector3)
    (engines : List CPhysicsEngine) : List CPhysicsEngine :=
  engines.map fun pe =>
    if pe.containsPoint pos then { pe with entities := pe.entities ++ [rootId] } else pe

/-- `CSpace::AddEntityToPhysicsEngine`: resolve the topmost ancestor,
collect the engines whose domain contains the embodied entity's position,
then: no match → `noHousing`; immovable → add the root to every match;
movable with a unique match → add the root to it; movable with several
matches → `ambiguous`, listing all matching engines. -/
def AddEntityToPhysicsEngine (engines : List CPhysicsEngine)
    (e : CEmbodiedEntity) : Except EngineAssignError (List CPhysicsEngine) :=
  let rootId := e.node.rootId
  let potential := engines.filter fun pe => pe.containsPoint e.position
  if potential.isEmpty then
    .error (.noHousing rootId)
  else if e.movable = false then
    .ok (addRootToMatching rootId e.position engines)
  else if potential.length = 1 then
    .ok (addRootToMatching rootId e.position engines)
  else
    .error (.ambiguous e.node.ownId (potential.map (·.id)))

/-! ## Distribution engine (`CSpace::Distribute`)

The per-copy do-while loop of `Distribute` is embedded with explicit
state passing. The position and orientation generators are abstracted as
draw streams indexed by the number of builds performed so far (both
generators are called exactly once per build, with the current retry
flag); the collision query `IsCollidingWithSomething`, delegated to the
physics layer, is abstracted as an oracle of the registry contents and the
drawn pose. Modelled from the spec: the registry add/remove operations
(`CSpaceOperationAddEntity` / `CSpaceOperationRemoveEntity`, not under
`src/`) append the new entity's id to the flat registry and, for an
embodied entity, to its physics engine's set, and removal undoes exactly
that addition; engine assignment of a freshly built embodied entity is
assumed to succeed. The do-while loop gets a fuel parameter so that
non-termination is observable as `outOfFuel`. -/

/-- Which geometric capability the templated entity turns out to have
after `Init`: embodied (itself or via a `body` component), positional but
not embodied, or neither. -/
inductive TemplateKind where
  | embodied
  | positionalOnly
  | neither
deriving DecidableEq, Repr

/-- The state threaded through `Distribute`: the flat registry of entity
ids in insertion order, the physics-engine entity set, and the number of
generator draws performed so far. -/
structure DistState where
  registry : List String
  engine : List String
  draws : ℕ
deriving DecidableEq, Repr

/-- Outcome of the per-copy placement loop. -/
inductive CopyOutcome where
  | ok (s : DistState)
  | maxTrialsExceeded (s : DistState)
  | cannotDistribute (s : DistState)
  | outOfFuel (s : DistState)
deriving DecidableEq, Repr

/-- One run of the `do { … } while(!bDone)` loop of `CSpace::Distribute`
for a single requested copy with identifier `entId`. Per iteration: draw
position and orientation (retry flag passed to both generators), then
case on the template's capability: neither positional nor embodied →
`cannotDistribute`; positional but not embodied → add to the registry and
loop again (the source never sets `bDone` in this branch); embodied → add
to registry and engine, then if the collision oracle reports a collision,
remove it again, set retry, bump the trial counter and either fail with
`maxTrialsExceeded` (counter now above `maxTrials`) or loop, else accept. -/
def placeCopy (kind : TemplateKind) (genP genO : ℕ → Bool → CVector3)
    (collide : List String → CVector3 → CVector3 → Bool)
    (maxTrials : ℕ) (entId : String) :
    ℕ → Bool → ℕ → DistState → CopyOutcome
  | 0, _, _, s => .outOfFuel s
  | fuel + 1, retry, trials, s =>
    let pos := genP s.draws retry
    let ori := genO s.draws retry
    let s1 : DistState := { s with draws := s.draws + 1 }
    match kind with
    | .neither => .cannotDistribute s1
    | .positionalOnly =>
        placeCopy kind genP genO collide maxTrials entId fuel retry trials
          { s1 with registry := s1.registry ++ [entId] }
    | .embodied =>
        if collide s1.registry pos ori then
          if trials + 1 > maxTrials then
            .maxTrialsExceeded { s1 with registry := s1.registry, engine := s1.engine }
          else
            placeCopy kind genP genO collide maxTrials entId fuel true (trials + 1) s1
        else
          .ok { s1 with registry := s1.registry ++ [entId], engine := s1.engine ++ [entId] }

/-- Outcome of `CSpace::Distribute` over all requested copies.
`maxTrialsExceeded placed s` models the `Exceeded max trials … I managed
to place only <placed> objects` exception, with `s` the state left behind
when it propagates. -/
inductive DistributeResult where
  | ok (s : DistState)
  | maxTrialsExceeded (placed : ℕ) (s : DistState)
  | cannotDistribute (s : DistState)
  | outOfFuel (s : DistState)
deriving DecidableEq, Repr

/-- The `for(UInt32 i = 0; i < unQuantity; ++i)` loop of
`CSpace::Distribute`: for each remaining copy, form the progressive id
`baseId ++ toString (i + baseNum)` and run the per-copy loop with the
trial counter and retry flag reset; a per-copy failure propagates,
recording the number `i` of copies placed so far. -/
def distributeLoop (kind : TemplateKind) (genP genO : ℕ → Bool → CVector3)
    (collide : List String → CVector3 → CVector3 → Bool)
    (maxTrials baseNum : ℕ) (baseId : String) (fuel : ℕ) :
    ℕ → ℕ → DistState → DistributeResult
  | 0, _, s => .ok s
  | n + 1, i, s =>
    match placeCopy kind genP genO collide maxTrials
        (baseId ++ toString (i + baseNum)) fuel false 0 s with
    | .ok s1 =>
        distributeLoop kind genP genO collide maxTrials baseNum baseId fuel n (i + 1) s1
    | .maxTrialsExceeded s1 => .maxTrialsExceeded i s1
    | .cannotDistribute s1 => .cannotDistribute s1
    | .outOfFuel s1 => .outOfFuel s1

/-- `CSpace::Distribute`, from the point where quantity, max_trials,
base_num and the base id have been read from the directive. -/
def Distribute (kind : TemplateKind) (genP genO : ℕ → Bool → CVector3)
    (collide : List String → CVector3 → CVector3 → Bool)
    (quantity maxTrials baseNum : ℕ) (baseId : String) (fuel : ℕ)
    (s : DistState) : DistributeResult :=
  distributeLoop kind genP genO collide maxTrials baseNum baseId fuel quantity 0 s

/-- `GetNodeAttributeOrDefault(cEntityNode, "base_num", unBaseNum, unBaseNum)`
with `unBaseNum` initialized to 0: an absent `base_num` attribute yields 0. -/
def baseNumOrDefault (attr : Option ℕ) : ℕ :=
  attr.getD 0

/-! ## Step orchestrator (`CSpace::Update`) -/

/-- The phases sequenced by one call to `CSpace::Update`, in the order
they appear in the source. -/
inductive StepPhase where
  | clockIncrement
  | actPhase
  | physicsUpdate
  | mediaUpdate
  | preStepHook
  | sensePhase
  | postStepHook
deriving DecidableEq, Repr

/-- The external collaborators invoked by `CSpace::Update`, abstracted as
world-state transformers: `UpdateControllableEntitiesAct`, `UpdatePhysics`,
`UpdateMedia`, the loop functions' `PreStep`,
`UpdateControllableEntitiesSenseStep`, and the loop functions' `PostStep`. -/
structure StepCollaborators (σ : Type) where
  act : σ → σ
  physics : σ → σ
  media : σ → σ
  preStep : σ → σ
  senseStep : σ → σ
  postStep : σ → σ

/-- The state `CSpace::Update` acts on: the simulation clock plus the
world state the collaborators transform. -/
structure StepState (σ : Type) where
  simulationClock : ℕ
  world : σ

/-- `CSpace::Update`: increment the simulation clock, then run act,
physics, media, the pre-step hook, sense, and the post-step hook, each on
the state produced by the previous phase; the returned trace records the
order in which the phases were entered. -/
def Update {σ : Type} (c : StepCollaborators σ) (s : StepState σ) :
    StepState σ × List StepPhase :=
  let clock1 := s.simulationClock + 1
  let w1 := c.act s.world
  let w2 := c.physics w1
  let w3 := c.media w2
  let w4 := c.preStep w3
  let w5 := c.senseStep w4
  let w6 := c.postStep w5
  (⟨clock1, w6⟩,
   [.clockIncrement, .actPhase, .physicsUpdate, .mediaUpdate,
    .preStepHook, .sensePhase, .postStepHook])

/-! ## Reset (`CSpace::Reset`) -/

/-- An entity as seen by `CSpace::Reset`: an identifier, an internal
state of some type `α`, and its `Reset` behaviour. Modelled from the
spec: the virtual `CEntity::Reset` implementations (not under `src/`)
reinitialize the entity's internal state to its configuration-time
defaults without touching the registry, which the state transformer
`resetState` renders. -/
structure REntity (α : Type) where
  id : String
  state : α
  resetState : α → α

/-- The registry state owned by `CSpace`: the simulation clock, the flat
entity collection `m_vecEntities`, the per-type per-id index
`m_mapEntitiesPerTypePerId` (entities stood for by id), the root index
`m_vecRootEntities` and the controllable index
`m_vecControllableEntities`. -/
structure SpaceRegistry (α : Type) where
  simulationClock : ℕ
  vecEntities : List (REntity α)
  mapEntitiesPerTypePerId : List (String × List (String × String))
  vecRootEntities : List String
  vecControllableEntities : List String

/-- `CSpace::Reset`: zero the simulation clock, then call `Reset` on each
entity of the flat collection in order; no index is touched. -/
def SpaceRegistry.Reset {α : Type} (s : SpaceRegistry α) : SpaceRegistry α :=
  { s with
    simulationClock := 0,
    vecEntities := s.vecEntities.map fun e => { e with state := e.resetState e.state } }

/-! ## Tag-equipped entity (`CTagEquippedEntity::SetTagPayloads`) -/

/-- A quaternion (orientation offsets of tag instances). -/
structure CQuaternion where
  w : ℚ
  x : ℚ
  y : ℚ
  z : ℚ
deriving DecidableEq, Repr

/-- `CTagEntity` as far as payloads are concerned. -/
structure CTagEntity where
  payload : String
deriving DecidableEq, Repr

/-- `CTagEquippedEntity::SInstance`: a tag, the id of the anchor it is
attached to, and its fixed offsets from that anchor. -/
structure SInstance where
  tag : CTagEntity
  anchorId : String
  positionOffset : CVector3
  orientationOffset : CQuaternion
deriving DecidableEq, Repr

/-- `CTagEquippedEntity`: its id and its tag instances in order. -/
structure CTagEquippedEntity where
  id : String
  instances : List SInstance
deriving DecidableEq, Repr

/-- The exception thrown by the vector overload of `SetTagPayloads` when
the payload vector size differs from the number of tag instances; the
message interpolates both counts. -/
inductive TagPayloadError where
  | sizeMismatch (numTags numPayloads : ℕ)
deriving DecidableEq, Repr

/-- `CTagEquippedEntity::SetTagPayloads(const std::vector<std::string>&)`:
if the vector's size equals the number of instances, set the i-th tag's
payload to the i-th vector element for every i; otherwise throw. -/
def CTagEquippedEntity.SetTagPayloads (e : CTagEquippedEntity)
    (payloads : List String) : Except TagPayloadError CTagEquippedEntity :=
  if payloads.length = e.instances.length then
    .ok { e with
          instances := (e.instances.zip payloads).map fun ip =>
            { ip.1 with tag := { ip.1.tag with payload := ip.2 } } }
  else
    .error (.sizeMismatch e.instances.length payloads.length)

/-! ## Theorems -/

/-- C6: the grid generator, called with `retry = false`, returns cells in
row-major order (x fastest via `n % layout0`, then y via
`n / layout0 % layout1`, then z via `n / (layout0 * layout1)`) centered on
the configured center; with layout (2,1,1), center (0,0,0), distances
(1,0,0) the first call returns (0.5,0,0), the second (-0.5,0,0), and the
third fails with the exhaustion error; a call with `retry = true` always
fails, regardless of remaining capacity. -/
theorem grid_generator_row_major_and_example :
    (∀ g : GridGenerator, g.call true = .error (.retryImpossible g.numEntityPlaced)) ∧
    (∀ g : GridGenerator, g.numEntityPlaced < g.layout0 * g.layout1 * g.layout2 →
      g.call false = .ok
        (gridCell g.center g.layout0 g.layout1 g.layout2 g.distances
          (g.numEntityPlaced % g.layout0)
          (g.numEntityPlaced / g.layout0 % g.layout1)
          (g.numEntityPlaced / (g.layout0 * g.layout1)),
         { g with numEntityPlaced := g.numEntityPlaced + 1 })) ∧
    ((⟨⟨0, 0, 0⟩, 2, 1, 1, ⟨1, 0, 0⟩, 0⟩ : GridGenerator).call false =
        .ok (⟨1/2, 0, 0⟩, ⟨⟨0, 0, 0⟩, 2, 1, 1, ⟨1, 0, 0⟩, 1⟩) ∧
      (⟨⟨0, 0, 0⟩, 2, 1, 1, ⟨1, 0, 0⟩, 1⟩ : GridGenerator).call false =
        .ok (⟨-(1/2), 0, 0⟩, ⟨⟨0, 0, 0⟩, 2, 1, 1, ⟨1, 0, 0⟩, 2⟩) ∧
      (⟨⟨0, 0, 0⟩, 2, 1, 1, ⟨1, 0, 0⟩, 2⟩ : GridGenerator).call false =
        .error .capacityExceeded) := by
  refine ⟨fun g => rfl, fun g h => ?_, ?_, ?_, ?_⟩
  · simp [GridGenerator.call, gridCell, h]
  · norm_num [GridGenerator.call]
  · norm_num [GridGenerator.call]
  · norm_num [GridGenerator.call]

/-- Witness for C6: the general row-major clause evaluated on a concrete
3×2×1 grid at counter 4 (cell indices (1,1,0)). -/
theorem grid_generator_row_major_and_example_witness :
    (⟨⟨0, 0, 0⟩, 3, 2, 1, ⟨1, 1, 0⟩, 4⟩ : GridGenerator).call false =
      .ok (gridCell ⟨0, 0, 0⟩ 3 2 1 ⟨1, 1, 0⟩ (4 % 3) (4 / 3 % 2) (4 / (3 * 2)),
           ⟨⟨0, 0, 0⟩, 3, 2, 1, ⟨1, 1, 0⟩, 5⟩) :=
  grid_generator_row_major_and_example.2.1 ⟨⟨0, 0, 0⟩, 3, 2, 1, ⟨1, 1, 0⟩, 4⟩ (by decide)

/-- C7: for every uniform generator constructed with min ≤ max
componentwise (so that `createUniformGenerator` accepts it), and every
RNG satisfying the range contract of `CRandom::CRNG::Uniform`, every
sample lies within `[min, max]` on each axis, and on any axis where
`min = max` the sample equals exactly that shared value. -/
theorem uniform_axis_bounds (rng : ℚ → ℚ → ℚ)
    (hrng : ∀ lo hi : ℚ, lo < hi → lo ≤ rng lo hi ∧ rng lo hi ≤ hi)
    (lo hi : ℚ) (h : lo ≤ hi) :
    (lo ≤ (if hi > lo then rng lo hi else hi) ∧
      (if hi > lo then rng lo hi else hi) ≤ hi) ∧
    (lo = hi → (if hi > lo then rng lo hi else hi) = hi) := by
  by_cases hgt : hi > lo
  · rw [if_pos hgt]
    exact ⟨⟨(hrng lo hi hgt).1, (hrng lo hi hgt).2⟩,
           fun he => absurd he (ne_of_lt hgt)⟩
  · rw [if_neg hgt]
    exact ⟨⟨h, le_refl hi⟩, fun _ => rfl⟩

/-- C7: for every uniform generator constructed with min ≤ max
componentwise (so that `createUniformGenerator` accepts it), and every
RNG satisfying the range contract of `CRandom::CRNG::Uniform`, every
sample lies within `[min, max]` on each axis, and on any axis where
`min = max` the sample equals exactly that shared value. -/
theorem uniform_generator_bounds (rng : ℚ → ℚ → ℚ)
    (hrng : ∀ lo hi : ℚ, lo < hi → lo ≤ rng lo hi ∧ rng lo hi ≤ hi)
    (mn mx : CVector3) (u : UniformGenerator)
    (hu : createUniformGenerator mn mx = .ok u) :
    (mn.x ≤ (u.call rng).x ∧ (u.call rng).x ≤ mx.x ∧
     mn.y ≤ (u.call rng).y ∧ (u.call rng).y ≤ mx.y ∧
     mn.z ≤ (u.call rng).z ∧ (u.call rng).z ≤ mx.z) ∧
    ((mn.x = mx.x → (u.call rng).x = mx.x) ∧
     (mn.y = mx.y → (u.call rng).y = mx.y) ∧
     (mn.z = mx.z → (u.call rng).z = mx.z)) := by
  unfold createUniformGenerator at hu
  by_cases hle : CVector3.le mn mx
  · rw [if_pos hle] at hu
    injection hu with h1
    subst h1
    unfold CVector3.le at hle
    simp only [Bool.and_eq_true, decide_eq_true_eq] at hle
    obtain ⟨⟨hx, hy⟩, hz⟩ := hle
    have bx := uniform_axis_bounds rng hrng mn.x mx.x hx
    have by' := uniform_axis_bounds rng hrng mn.y mx.y hy
    have bz := uniform_axis_bounds rng hrng mn.z mx.z hz
    simp only [UniformGenerator.call]
    exact ⟨⟨bx.1.1, bx.1.2, by'.1.1, by'.1.2, bz.1.1, bz.1.2⟩,
           ⟨bx.2, by'.2, bz.2⟩⟩
  · rw [if_neg hle] at hu
    exact Except.noConfusion hu

/-- Witness for C7: the theorem applied to the degenerate-respecting RNG
`fun lo _ => lo` and the bounds min = (0,0,5), max = (1,2,5). -/
theorem uniform_generator_bounds_witness :
    (((⟨0, 0, 5⟩ : CVector3).x ≤
        (UniformGenerator.call (fun lo _ => lo) ⟨⟨0, 0, 5⟩, ⟨1, 2, 5⟩⟩).x ∧
      (UniformGenerator.call (fun lo _ => lo) ⟨⟨0, 0, 5⟩, ⟨1, 2, 5⟩⟩).x ≤
        (⟨1, 2, 5⟩ : CVector3).x ∧
      (⟨0, 0, 5⟩ : CVector3).y ≤
        (UniformGenerator.call (fun lo _ => lo) ⟨⟨0, 0, 5⟩, ⟨1, 2, 5⟩⟩).y ∧
      (UniformGenerator.call (fun lo _ => lo) ⟨⟨0, 0, 5⟩, ⟨1, 2, 5⟩⟩).y ≤
        (⟨1, 2, 5⟩ : CVector3).y ∧
      (⟨0, 0, 5⟩ : CVector3).z ≤
        (UniformGenerator.call (fun lo _ => lo) ⟨⟨0, 0, 5⟩, ⟨1, 2, 5⟩⟩).z ∧
      (UniformGenerator.call (fun lo _ => lo) ⟨⟨0, 0, 5⟩, ⟨1, 2, 5⟩⟩).z ≤
        (⟨1, 2, 5⟩ : CVector3).z) ∧
     (((⟨0, 0, 5⟩ : CVector3).x = (⟨1, 2, 5⟩ : CVector3).x →
        (UniformGenerator.call (fun lo _ => lo) ⟨⟨0, 0, 5⟩, ⟨1, 2, 5⟩⟩).x =
          (⟨1, 2, 5⟩ : CVector3).x) ∧
      ((⟨0, 0, 5⟩ : CVector3).y = (⟨1, 2, 5⟩ : CVector3).y →
        (UniformGenerator.call (fun lo _ => lo) ⟨⟨0, 0, 5⟩, ⟨1, 2, 5⟩⟩).y =
          (⟨1, 2, 5⟩ : CVector3).y) ∧
      ((⟨0, 0, 5⟩ : CVector3).z = (⟨1, 2, 5⟩ : CVector3).z →
        (UniformGenerator.call (fun lo _ => lo) ⟨⟨0, 0, 5⟩, ⟨1, 2, 5⟩⟩).z =
          (⟨1, 2, 5⟩ : CVector3).z))) :=
  uniform_generator_bounds (fun lo _ => lo)
    (fun lo _ h => ⟨le_refl lo, le_of_lt h⟩)
    ⟨0, 0, 5⟩ ⟨1, 2, 5⟩ ⟨⟨0, 0, 5⟩, ⟨1, 2, 5⟩⟩ rfl

/-- C2: for every movable embodied entity whose position is contained in
the domain of exactly one physics engine, `AddEntityToPhysicsEngine` adds
the entity's root to that engine (matching engines get the root appended,
all other engines are untouched); with more than one containing engine it
fails with the ambiguity error naming the embodied entity and every
conflicting engine, and no engine's entity set is modified (no updated
engine list is produced). -/
theorem add_entity_movable_engine_assignment (engines : List CPhysicsEngine)
    (e : CEmbodiedEntity) (hm : e.movable = true) :
    ((engines.countP fun pe => pe.containsPoint e.position) = 1 →
      AddEntityToPhysicsEngine engines e =
        .ok (engines.map fun pe =>
          if pe.containsPoint e.position then
            { pe with entities := pe.entities ++ [e.node.rootId] }
          else pe)) ∧
    (1 < (engines.countP fun pe => pe.containsPoint e.position) →
      AddEntityToPhysicsEngine engines e =
        .error (.ambiguous e.node.ownId
          ((engines.filter fun pe => pe.containsPoint e.position).map (·.id)))) := by
  constructor
  · intro h1
    rw [List.countP_eq_length_filter] at h1
    have hne : ((engines.filter fun pe => pe.containsPoint e.position).isEmpty) = false := by
      cases hfe : engines.filter fun pe => pe.containsPoint e.position with
      | nil => rw [hfe] at h1; simp at h1
      | cons a l => rfl
    simp [AddEntityToPhysicsEngine, addRootToMatching, hne, hm, h1]
  · intro h2
    rw [List.countP_eq_length_filter] at h2
    have hne : ((engines.filter fun pe => pe.containsPoint e.position).isEmpty) = false := by
      cases hfe : engines.filter fun pe => pe.containsPoint e.position with
      | nil => rw [hfe] at h2; simp at h2
      | cons a l => rfl
    have hlen : ((engines.filter fun pe => pe.containsPoint e.position).length) ≠ 1 := by
      omega
    simp [AddEntityToPhysicsEngine, hne, hm, hlen]

/-- Witness for C2: a movable body whose position only the first of two
engines contains is assigned to that engine alone; its root id (resolved
through the parent chain) is what gets registered. -/
theorem add_entity_movable_engine_assignment_witness :
    AddEntityToPhysicsEngine
        [⟨"engine1", fun _ => true, []⟩, ⟨"engine2", fun _ => false, []⟩]
        ⟨.child "body" (.root "robot"), ⟨0, 0, 0⟩, true⟩ =
      .ok [⟨"engine1", fun _ => true, ["robot"]⟩, ⟨"engine2", fun _ => false, []⟩] :=
  (add_entity_movable_engine_assignment
      [⟨"engine1", fun _ => true, []⟩, ⟨"engine2", fun _ => false, []⟩]
      ⟨.child "body" (.root "robot"), ⟨0, 0, 0⟩, true⟩ rfl).1 (by decide)

/-- C3: for every immovable embodied entity,
`AddEntityToPhysicsEngine` resolves the topmost ancestor and adds that
root to every engine whose domain contains the embodied entity's own
position, leaving non-matching engines untouched; if no engine's domain
contains the position it fails with the no-housing error naming the root. -/
theorem add_entity_immovable_engine_assignment (engines : List CPhysicsEngine)
    (e : CEmbodiedEntity) (hm : e.movable = false) :
    ((engines.filter fun pe => pe.containsPoint e.position) ≠ [] →
      AddEntityToPhysicsEngine engines e =
        .ok (engines.map fun pe =>
          if pe.containsPoint e.position then
            { pe with entities := pe.entities ++ [e.node.rootId] }
          else pe)) ∧
    ((engines.filter fun pe => pe.containsPoint e.position) = [] →
      AddEntityToPhysicsEngine engines e = .error (.noHousing e.node.rootId)) := by
  constructor
  · intro h1
    have hne : ((engines.filter fun pe => pe.containsPoint e.position).isEmpty) = false := by
      cases hfe : engines.filter fun pe => pe.containsPoint e.position with
      | nil => exact absurd hfe h1
      | cons a l => rfl
    simp [AddEntityToPhysicsEngine, addRootToMatching, hne, hm]
  · intro h2
    have hem : ((engines.filter fun pe => pe.containsPoint e.position).isEmpty) = true := by
      rw [h2]; rfl
    simp [AddEntityToPhysicsEngine, hem]

/-- Witness for C3: an immovable entity inside two overlapping domains is
added to both engines' entity sets. -/
theorem add_entity_immovable_engine_assignment_witness :
    AddEntityToPhysicsEngine
        [⟨"pe1", fun _ => true, []⟩, ⟨"pe2", fun _ => true, ["wall"]⟩]
        ⟨.root "box", ⟨1, 2, 3⟩, false⟩ =
      .ok [⟨"pe1", fun _ => true, ["box"]⟩, ⟨"pe2", fun _ => true, ["wall", "box"]⟩] :=
  (add_entity_immovable_engine_assignment
      [⟨"pe1", fun _ => true, []⟩, ⟨"pe2", fun _ => true, ["wall"]⟩]
      ⟨.root "box", ⟨1, 2, 3⟩, false⟩ rfl).1 (fun h => List.noConfusion h)

theorem placeCopy_positionalOnly_loops (genP genO : ℕ → Bool → CVector3)
    (collide : List String → CVector3 → CVector3 → Bool)
    (maxTrials : ℕ) (entId : String) :
    ∀ (fuel : ℕ) (retry : Bool) (trials : ℕ) (s : DistState),
      placeCopy .positionalOnly genP genO collide maxTrials entId fuel retry trials s =
        .outOfFuel ⟨s.registry ++ List.replicate fuel entId, s.engine, s.draws + fuel⟩ := by
  intro fuel
  induction fuel with
  | zero =>
    intro retry trials s
    simp [placeCopy]
  | succ f ih =>
    intro retry trials s
    simp only [placeCopy]
    rw [ih]
    have hd : s.draws + 1 + f = s.draws + (f + 1) := by omega
    simp [List.replicate_succ, List.append_assoc, hd]

/-- C1 (refuted by the code): distributing a positional-but-not-embodied
template never terminates. The per-copy loop adds the entity to the
registry on every iteration and never reaches the next requested copy: the
source's positional branch omits setting the done flag of the do-while
loop. For every fuel bound, the run ends in `outOfFuel` with the same
entity id appended once per iteration. -/
theorem distribute_positionalOnly_loops_forever (genP genO : ℕ → Bool → CVector3)
    (collide : List String → CVector3 → CVector3 → Bool)
    (q maxTrials baseNum : ℕ) (baseId : String) (fuel : ℕ) (s : DistState) :
    Distribute .positionalOnly genP genO collide (q + 1) maxTrials baseNum baseId fuel s =
      .outOfFuel ⟨s.registry ++ List.replicate fuel (baseId ++ toString baseNum),
                  s.engine, s.draws + fuel⟩ := by
  unfold Distribute
  simp only [distributeLoop]
  rw [placeCopy_positionalOnly_loops]
  simp

theorem placeCopy_always_collide (genP genO : ℕ → Bool → CVector3)
    (collide : List String → CVector3 → CVector3 → Bool)
    (maxTrials : ℕ) (entId : String)
    (hc : ∀ reg p o, collide reg p o = true) :
    ∀ (fuel trials : ℕ) (retry : Bool) (s : DistState),
      trials ≤ maxTrials → maxTrials + 1 - trials ≤ fuel →
      placeCopy .embodied genP genO collide maxTrials entId fuel retry trials s =
        .maxTrialsExceeded ⟨s.registry, s.engine, s.draws + (maxTrials + 1 - trials)⟩ := by
  intro fuel
  induction fuel with
  | zero =>
    intro trials retry s ht hf
    exact absurd hf (by omega)
  | succ f ih =>
    intro trials retry s ht hf
    simp only [placeCopy, hc, if_true]
    by_cases hlast : trials = maxTrials
    · rw [if_pos (by omega)]
      have hd : maxTrials + 1 - trials = 1 := by omega
      simp [hd]
    · rw [if_neg (by omega)]
      rw [ih (trials + 1) true _ (by omega) (by omega)]
      have hd : s.draws + 1 + (maxTrials - trials) =
          s.draws + (maxTrials + 1 - trials) := by omega
      simp [hd]

/-- C4: when the embodied entities always collide, `Distribute` fails with
the max-trials error as soon as the trial counter exceeds `maxTrials`
(any fuel of at least `maxTrials + 1` iterations suffices and yields the
error, not fuel exhaustion), the error reports 0 copies placed (none ever
succeeds), and the state it propagates with has the registry and engine
exactly as before the call: the colliding trial entity was removed before
the error, with no partly-built entity left registered. -/
theorem distribute_always_collide_max_trials (genP genO : ℕ → Bool → CVector3)
    (collide : List String → CVector3 → CVector3 → Bool)
    (q maxTrials baseNum : ℕ) (baseId : String) (fuel : ℕ) (s : DistState)
    (hc : ∀ reg p o, collide reg p o = true)
    (hf : maxTrials + 1 ≤ fuel) :
    Distribute .embodied genP genO collide (q + 1) maxTrials baseNum baseId fuel s =
      .maxTrialsExceeded 0 ⟨s.registry, s.engine, s.draws + (maxTrials + 1)⟩ := by
  unfold Distribute
  simp only [distributeLoop]
  rw [placeCopy_always_collide genP genO collide maxTrials
      (baseId ++ toString (0 + baseNum)) hc fuel 0 false s (by omega) (by omega)]
  simp

/-- Witness for C4: one copy of an always-colliding body with
`max_trials = 2` fails after 3 trials, reporting 0 copies placed, with the
registry and engine left empty. -/
theorem distribute_always_collide_max_trials_witness :
    Distribute .embodied (fun _ _ => ⟨0, 0, 0⟩) (fun _ _ => ⟨0, 0, 0⟩)
        (fun _ _ _ => true) 1 2 0 "robot" 3 ⟨[], [], 0⟩ =
      .maxTrialsExceeded 0 ⟨[], [], 3⟩ :=
  distribute_always_collide_max_trials (fun _ _ => ⟨0, 0, 0⟩) (fun _ _ => ⟨0, 0, 0⟩)
    (fun _ _ _ => true) 0 2 0 "robot" 3 ⟨[], [], 0⟩ (fun _ _ _ => rfl) (by omega)

theorem placeCopy_first_trial_ok (genP genO : ℕ → Bool → CVector3)
    (collide : List String → CVector3 → CVector3 → Bool)
    (maxTrials : ℕ) (entId : String) (s : DistState) (fuel : ℕ)
    (hnc : collide s.registry (genP s.draws false) (genO s.draws false) = false) :
    placeCopy .embodied genP genO collide maxTrials entId (fuel + 1) false 0 s =
      .ok ⟨s.registry ++ [entId], s.engine ++ [entId], s.draws + 1⟩ := by
  simp [placeCopy, hnc]

theorem distributeLoop_no_collision (genP genO : ℕ → Bool → CVector3)
    (collide : List String → CVector3 → CVector3 → Bool)
    (maxTrials baseNum : ℕ) (baseId : String) (fuel : ℕ)
    (hnc : ∀ reg k, collide reg (genP k false) (genO k false) = false) :
    ∀ (n i : ℕ) (s : DistState),
      distributeLoop .embodied genP genO collide maxTrials baseNum baseId (fuel + 1) n i s =
        .ok ⟨s.registry ++ (List.range' i n).map (fun j => baseId ++ toString (j + baseNum)),
             s.engine ++ (List.range' i n).map (fun j => baseId ++ toString (j + baseNum)),
             s.draws + n⟩ := by
  intro n
  induction n with
  | zero =>
    intro i s
    simp [distributeLoop, List.range']
  | succ m ih =>
    intro i s
    simp only [distributeLoop]
    rw [placeCopy_first_trial_ok genP genO collide maxTrials
        (baseId ++ toString (i + baseNum)) s fuel (hnc s.registry s.draws)]
    dsimp only
    rw [ih (i + 1)]
    have hd : s.draws + 1 + m = s.draws + (m + 1) := by omega
    simp [List.range'_succ, List.append_assoc, hd]

/-- C5: with `max_trials = 0` and generators whose first-trial draws never
collide, `Distribute` succeeds and appends to the registry exactly `n` new
entities, the i-th copy (i = 0 … n-1) carrying the identifier
`baseId ++ toString (i + baseNum)`; and an absent `base_num` attribute
defaults to 0. -/
theorem distribute_no_collision_success (genP genO : ℕ → Bool → CVector3)
    (collide : List String → CVector3 → CVector3 → Bool)
    (n baseNum : ℕ) (baseId : String) (fuel : ℕ) (s : DistState)
    (hnc : ∀ reg k, collide reg (genP k false) (genO k false) = false) :
    (Distribute .embodied genP genO collide n 0 baseNum baseId (fuel + 1) s =
      .ok ⟨s.registry ++ (List.range n).map (fun i => baseId ++ toString (i + baseNum)),
           s.engine ++ (List.range n).map (fun i => baseId ++ toString (i + baseNum)),
           s.draws + n⟩) ∧
    baseNumOrDefault none = 0 := by
  refine ⟨?_, rfl⟩
  unfold Distribute
  rw [distributeLoop_no_collision genP genO collide 0 baseNum baseId fuel hnc n 0 s]
  rw [List.range_eq_range']

/-- Witness for C5: three non-colliding copies with base id `box` and
`base_num = 7` yield exactly box7, box8, box9 in the registry. -/
theorem distribute_no_collision_success_witness :
    (Distribute .embodied (fun _ _ => ⟨0, 0, 0⟩) (fun _ _ => ⟨0, 0, 0⟩)
        (fun _ _ _ => false) 3 0 7 "box" 1 ⟨[], [], 0⟩ =
      .ok ⟨[] ++ (List.range 3).map (fun i => "box" ++ toString (i + 7)),
           [] ++ (List.range 3).map (fun i => "box" ++ toString (i + 7)),
           0 + 3⟩) ∧
    baseNumOrDefault none = 0 :=
  distribute_no_collision_success (fun _ _ => ⟨0, 0, 0⟩) (fun _ _ => ⟨0, 0, 0⟩)
    (fun _ _ _ => false) 3 7 "box" 0 ⟨[], [], 0⟩ (fun _ _ => rfl)

/-- C8: within one simulation step the phases run in the strict order
clock increment, act, physics, media, pre-step hook, sense, post-step
hook: the emitted trace lists them in exactly that order, the clock is
incremented first, and the final world state is the sequential composition
of the phase transformers, each one consuming the completed output of the
previous phase. -/
theorem update_phase_order {σ : Type} (c : StepCollaborators σ) (s : StepState σ) :
    (Update c s).2 =
      [.clockIncrement, .actPhase, .physicsUpdate, .mediaUpdate,
       .preStepHook, .sensePhase, .postStepHook] ∧
    (Update c s).1.simulationClock = s.simulationClock + 1 ∧
    (Update c s).1.world =
      c.postStep (c.senseStep (c.preStep (c.media (c.physics (c.act s.world))))) :=
  ⟨rfl, rfl, rfl⟩

/-- C9: `Reset` zeroes the simulation clock and leaves the registry's
structure unchanged: the flat collection holds the same entities (same
ids, same count, in the same order), and the per-type index, root index
and controllable index are untouched. -/
theorem reset_zeroes_clock_preserves_registry {α : Type} (s : SpaceRegistry α) :
    s.Reset.simulationClock = 0 ∧
    s.Reset.vecEntities.map (fun e => e.id) = s.vecEntities.map (fun e => e.id) ∧
    s.Reset.vecEntities.length = s.vecEntities.length ∧
    s.Reset.mapEntitiesPerTypePerId = s.mapEntitiesPerTypePerId ∧
    s.Reset.vecRootEntities = s.vecRootEntities ∧
    s.Reset.vecControllableEntities = s.vecControllableEntities := by
  refine ⟨rfl, ?_, ?_, rfl, rfl, rfl⟩
  · simp [SpaceRegistry.Reset, List.map_map]
  · simp [SpaceRegistry.Reset]

/-- C10: `SetTagPayloads` with a payload vector of exactly the number of
tag instances sets the i-th tag's payload to the i-th element (the
resulting payload column equals the vector) while preserving the anchor
and offsets of every instance and the instance count; with any other
vector size it throws the size-mismatch exception (no updated entity is
produced, so no payload changes). -/
theorem set_tag_payloads_all_or_nothing (e : CTagEquippedEntity)
    (payloads : List String) :
    (payloads.length = e.instances.length →
      ∃ e2, e.SetTagPayloads payloads = .ok e2 ∧
        e2.id = e.id ∧
        e2.instances.length = e.instances.length ∧
        e2.instances.map (fun i => i.tag.payload) = payloads ∧
        e2.instances.map (fun i => i.anchorId) =
          e.instances.map (fun i => i.anchorId) ∧
        e2.instances.map (fun i => i.positionOffset) =
          e.instances.map (fun i => i.positionOffset) ∧
        e2.instances.map (fun i => i.orientationOffset) =
          e.instances.map (fun i => i.orientationOffset)) ∧
    (payloads.length ≠ e.instances.length →
      e.SetTagPayloads payloads =
        .error (.sizeMismatch e.instances.length payloads.length)) := by
  constructor
  · intro hlen
    refine ⟨⟨e.id, (e.instances.zip payloads).map fun ip =>
        { ip.1 with tag := { ip.1.tag with payload := ip.2 } }⟩,
      ?_, rfl, ?_, ?_, ?_, ?_, ?_⟩
    · unfold CTagEquippedEntity.SetTagPayloads
      rw [if_pos hlen]
    · simp [List.length_zip, hlen]
    · rw [List.map_map]
      have hcomp :
          ((fun i => i.tag.payload) ∘
            fun ip : SInstance × String =>
              { ip.1 with tag := { ip.1.tag with payload := ip.2 } }) =
          Prod.snd := rfl
      rw [hcomp]
      exact List.map_snd_zip e.instances payloads (le_of_eq hlen)
    · rw [List.map_map]
      have hcomp :
          ((fun i => i.anchorId) ∘
            fun ip : SInstance × String =>
              { ip.1 with tag := { ip.1.tag with payload := ip.2 } }) =
          ((fun i => i.anchorId) ∘ Prod.fst) := rfl
      rw [hcomp, ← List.map_map]
      rw [List.map_fst_zip e.instances payloads (le_of_eq hlen.symm)]
    · rw [List.map_map]
      have hcomp :
          ((fun i => i.positionOffset) ∘
            fun ip : SInstance × String =>
              { ip.1 with tag := { ip.1.tag with payload := ip.2 } }) =
          ((fun i => i.positionOffset) ∘ Prod.fst) := rfl
      rw [hcomp, ← List.map_map]
      rw [List.map_fst_zip e.instances payloads (le_of_eq hlen.symm)]
    · rw [List.map_map]
      have hcomp :
          ((fun i => i.orientationOffset) ∘
            fun ip : SInstance × String =>
              { ip.1 with tag := { ip.1.tag with payload := ip.2 } }) =
          ((fun i => i.orientationOffset) ∘ Prod.fst) := rfl
      rw [hcomp, ← List.map_map]
      rw [List.map_fst_zip e.instances payloads (le_of_eq hlen.symm)]
  · intro hlen
    unfold CTagEquippedEntity.SetTagPayloads
    rw [if_neg hlen]

/-- Witness for C10: setting two payloads on a two-tag entity updates
exactly the payload column. -/
theorem set_tag_payloads_all_or_nothing_witness :
    ∃ e2, CTagEquippedEntity.SetTagPayloads
        ⟨"tags", [⟨⟨"old0"⟩, "origin", ⟨0, 0, 0⟩, ⟨1, 0, 0, 0⟩⟩,
                  ⟨⟨"old1"⟩, "turret", ⟨0, 0, 1⟩, ⟨1, 0, 0, 0⟩⟩]⟩
        ["new0", "new1"] = .ok e2 ∧
      e2.id = "tags" ∧
      e2.instances.length = 2 ∧
      e2.instances.map (fun i => i.tag.payload) = ["new0", "new1"] ∧
      e2.instances.map (fun i => i.anchorId) = ["origin", "turret"] ∧
      e2.instances.map (fun i => i.positionOffset) = [⟨0, 0, 0⟩, ⟨0, 0, 1⟩] ∧
      e2.instances.map (fun i => i.orientationOffset) = [⟨1, 0, 0, 0⟩, ⟨1, 0, 0, 0⟩] :=
  (set_tag_payloads_all_or_nothing
      ⟨"tags", [⟨⟨"old0"⟩, "origin", ⟨0, 0, 0⟩, ⟨1, 0, 0, 0⟩⟩,
                ⟨⟨"old1"⟩, "turret", ⟨0, 0, 1⟩, ⟨1, 0, 0, 0⟩⟩]⟩
      ["new0", "new1"]).1 rfl

end Argos

